import Mathlib

/-!
Verification of the finance-agent orchestration core of the ramonbot
repository: the tool-calling loop (`runFinanceAgent` in
finance-agent/index.ts), the SSE conversation endpoint (`POST` in
app/api/finance/chat/route.ts), and the data tool adapters
(stock-quote.ts, company-info.ts, company-news.ts, api.ts).

Machine numbers that only flow through display formatting are modelled
as rationals; external effects (the model service, the market-data
fetch) are modelled as explicit oracles / outcome values passed in.
-/

/-! ## Substring helpers (JS `String.prototype.includes`) -/

/-- Boolean substring test: `strContains s pat` models JS `s.includes(pat)`. -/
def strContains (s pat : String) : Bool := decide (List.IsInfix pat.data s.data)

/-! ## Data model (finance-agent/index.ts, @langchain message shapes) -/

/-- A tool call emitted by the model: tool name, correlation id, and an
opaque structured-argument payload. -/
structure ToolCall where
  name : String
  id : String
  args : String
deriving DecidableEq

/-- One conversation entry: SystemMessage, HumanMessage, AIMessage (with
its `tool_calls`), or ToolMessage (with its `tool_call_id`). -/
inductive Message where
  | system (content : String)
  | human (content : String)
  | ai (content : String) (tool_calls : List ToolCall)
  | toolMsg (content : String) (tool_call_id : String)
deriving DecidableEq

/-- One model reply, as consumed by the loop: text content plus the list
of requested tool calls (an absent `tool_calls` field is the empty list). -/
structure ModelReply where
  content : String
  tool_calls : List ToolCall
deriving DecidableEq

/-- AGENT_CONFIG from finance-agent/index.ts (the fields that drive
control flow; `model` and `temperature` only parameterize the opaque
model service). -/
structure AgentConfig where
  maxIterations : Nat
  timeoutMs : Nat
deriving DecidableEq

/-- The configured iteration ceiling and time budget. -/
def AGENT_CONFIG : AgentConfig := { maxIterations := 10, timeoutMs := 30000 }

/-- Names of the three registry tools, in construction order
(tools/index.ts: get_stock_quote, get_company_info, get_company_news). -/
def toolNames : List String := ["get_stock_quote", "get_company_info", "get_company_news"]

/-- `tools.find(t => t.name === toolCall.name)` followed by `invoke`:
a matched name yields a ToolMessage carrying the executed result and the
call id; an unmatched name yields `none` (the loop's `return null`).
`exec` is the oracle giving the text a tool invocation settles to (the
adapter's return value, or the `Error: ...` text built by the loop's
catch). -/
def execToolCall (exec : ToolCall → String) (tc : ToolCall) : Option Message :=
  if toolNames.contains tc.name then some (Message.toolMsg (exec tc) tc.id) else none

/-- The tool results of one iteration: `Promise.all` preserves the order
of `toolCalls`, and the loop then pushes exactly the non-null entries. -/
def iterResults (exec : ToolCall → String) (calls : List ToolCall) : List Message :=
  calls.filterMap (execToolCall exec)

/-- The fallback output returned when maxIterations is exhausted. -/
def fallbackOutput : String :=
  "I was unable to complete the research. Please try a simpler question."

/-- Result of one run of the loop: the returned `output`, plus the final
conversation and the number of model invocations as observations. -/
structure LoopResult where
  output : String
  messages : List Message
  invokes : Nat
deriving DecidableEq

/-- Count one more model invocation in a loop result. -/
def bump (r : LoopResult) : LoopResult := { r with invokes := r.invokes + 1 }

/-- The `for (let i = 0; i < AGENT_CONFIG.maxIterations; i++)` loop of
`runFinanceAgent`. `replies i` is the model's reply to the i-th
invocation. Each pass appends the reply; with no tool calls it returns
the reply content, otherwise it appends the iteration's tool results and
loops. Exhausted fuel returns the fallback output. -/
def runLoop (replies : Nat → ModelReply) (exec : ToolCall → String) :
    List Message → Nat → Nat → LoopResult
  | msgs, _, 0 => ⟨fallbackOutput, msgs, 0⟩
  | msgs, i, fuel + 1 =>
    let r := replies i
    let msgs1 := msgs ++ [Message.ai r.content r.tool_calls]
    if r.tool_calls.isEmpty then
      ⟨r.content, msgs1, 1⟩
    else
      bump (runLoop replies exec (msgs1 ++ iterResults exec r.tool_calls) (i + 1) fuel)

/-- FINANCE_AGENT_SYSTEM_PROMPT from finance-agent/prompts.ts. -/
def FINANCE_AGENT_SYSTEM_PROMPT : String :=
  "You are a financial research analyst assistant. Your job is to help users understand stocks, companies, and market data.\n\n## Your Capabilities\n\nYou have access to tools that can:\n1. **get_stock_quote** - Get current stock price, change, volume, and trading data\n2. **get_company_info** - Get company fundamentals (description, sector, market cap, P/E ratio)\n3. **get_company_news** - Get recent news articles with sentiment analysis\n\n## How to Respond\n\nWhen a user asks about a stock or company:\n\n1. **Identify what they need** - Are they asking about price, fundamentals, news, or a combination?\n\n2. **Use the right tools** - Call the appropriate tools to gather data. For a comprehensive analysis, you might use all three tools.\n\n3. **Synthesize the information** - Don't just dump raw data. Provide insights:\n   - Is the stock up or down? By how much?\n   - How does the current price compare to the 52-week range?\n   - What's the market sentiment based on news?\n   - Are there any notable patterns or concerns?\n\n4. **Be balanced** - Present both positives and negatives. Don't give one-sided analysis.\n\n5. **Add context** - Help users understand what the numbers mean. A P/E of 50 is high for most stocks but might be normal for high-growth tech.\n\n## Important Guidelines\n\n- **Never give financial advice.** You provide information and analysis, but you are NOT a financial advisor. Always remind users to do their own research and consult professionals.\n\n- **Be accurate.** Only state facts you can verify from the tools. If you're unsure about something, say so.\n\n- **Be concise.** Provide clear, actionable summaries. Don't overwhelm with unnecessary detail.\n\n- **Handle errors gracefully.** If a tool fails or a ticker isn't found, explain the issue clearly.\n\n## Example Interactions\n\n**User:** \"What's happening with NVDA?\"\n**You should:** Get the stock quote, recent news, and potentially company info. Summarize the current price, recent movement, and what's driving it based on news sentiment.\n\n**User:** \"Compare AAPL and MSFT\"\n**You should:** Get quotes and company info for both. Present a side-by-side comparison of price, market cap, P/E ratio, and any notable differences.\n\n**User:** \"Should I buy Tesla?\"\n**You should:** Provide the data (quote, fundamentals, news), but explicitly state that you cannot give buy/sell advice. Encourage them to consult a financial advisor.\n\n## Response Format\n\nUse clear formatting:\n- Use **bold** for key metrics and important points\n- Use bullet points for lists of data\n- Separate sections with line breaks\n- Lead with the most important information\n- End with any caveats or disclaimers if needed\n\nRemember: Your goal is to make financial data accessible and understandable, not to make investment decisions for users."

/-- The initial conversation: `[new SystemMessage(FINANCE_AGENT_SYSTEM_PROMPT),
new HumanMessage(query)]`. -/
def initialConv (query : String) : List Message :=
  [Message.system FINANCE_AGENT_SYSTEM_PROMPT, Message.human query]

/-- `runFinanceAgent(query)`, with the model and the tool executions as
oracles. -/
def runFinanceAgent (query : String) (replies : Nat → ModelReply)
    (exec : ToolCall → String) : LoopResult :=
  runLoop replies exec (initialConv query) 0 AGENT_CONFIG.maxIterations

/-! ## The conversation endpoint (app/api/finance/chat/route.ts)

The inbound message is modelled as a list of characters so that JS
`trim()` and `slice(0, 500)` are transparent definitions. -/

/-- Whitespace as stripped by JS `String.prototype.trim` (the ASCII part). -/
def isJsWhitespace (c : Char) : Bool :=
  c == ' ' || c == '\t' || c == '\n' || c == '\r' || c == '\x0b' || c == '\x0c'

/-- JS `s.trim()`: drop whitespace from both ends. -/
def jsTrim (s : List Char) : List Char :=
  ((s.dropWhile isJsWhitespace).reverse.dropWhile isJsWhitespace).reverse

/-- The `message` field of the parsed request body: absent, present but
not a string, or a string. -/
inductive MessageField where
  | missing
  | nonString
  | str (value : List Char)
deriving DecidableEq

/-- A parsed JSON request body. -/
structure ReqBody where
  message : MessageField
deriving DecidableEq

/-- An inbound request; `body = none` models `request.json()` throwing. -/
structure Request where
  body : Option ReqBody
deriving DecidableEq

/-- One SSE frame `data: {"type": ..., "content": ...}` as sent by the
endpoint's `send`. -/
inductive Frame where
  | thought (content : String)
  | message (content : String)
  | error (content : String)
deriving DecidableEq

/-- A frame that terminates the stream: a final answer or an error. -/
def isTerminalFrame : Frame → Bool
  | Frame.thought _ => false
  | Frame.message _ => true
  | Frame.error _ => true

/-- Outcome of `await runFinanceAgent(message)` at the endpoint: a
normal return carrying `result.output`, or a thrown error carrying its
message. -/
inductive AgentOutcome where
  | ok (output : String)
  | err (message : String)

/-- The endpoint's catch block: map a thrown error's message to one of
the three categorized client-facing error texts by substring sniffing. -/
def categorizeError (e : String) : String :=
  if strContains e "OPENAI_API_KEY" then "OpenAI API key is not configured."
  else if strContains e "ALPHA_VANTAGE_API_KEY" then "Alpha Vantage API key is not configured."
  else "Something went wrong. Please try again."

/-- The endpoint `POST`, abstracted over the agent as `agentRun`.
Returns the list of frames enqueued on the stream, in order, and the
query string actually passed to the agent (`none` when the agent was
never invoked). Mirrors route.ts: body parse, the
`!message || typeof message !== 'string' || message.trim().length === 0`
guard, `message.trim().slice(0, 500)`, the `thought` frame, then either
the `message` frame or the categorized `error` frame. -/
def POST (req : Request) (agentRun : List Char → AgentOutcome) :
    List Frame × Option (List Char) :=
  match req.body with
  | none => ([Frame.error "Invalid request body"], none)
  | some body =>
    match body.message with
    | MessageField.missing => ([Frame.error "Please provide a message"], none)
    | MessageField.nonString => ([Frame.error "Please provide a message"], none)
    | MessageField.str s =>
      if s.isEmpty || (jsTrim s).isEmpty then
        ([Frame.error "Please provide a message"], none)
      else
        let m := (jsTrim s).take 500
        match agentRun m with
        | AgentOutcome.ok out =>
          ([Frame.thought "Researching...", Frame.message out], some m)
        | AgentOutcome.err e =>
          ([Frame.thought "Researching...", Frame.error (categorizeError e)], some m)

/-- The error thrown by `getOpenAIKey()` when OPENAI_API_KEY is unset. -/
def OPENAI_KEY_MISSING_MSG : String :=
  "OPENAI_API_KEY is not set.\nGet a key at: https://platform.openai.com/api-keys\nThen add it to your .env.local file."

/-- `runFinanceAgent` as invoked by the endpoint: with no OPENAI_API_KEY
the agent throws before its loop starts; otherwise the loop (with the
model and tool oracles) returns its output normally. -/
def agentRunOf (replies : Nat → ModelReply) (exec : ToolCall → String)
    (key : Option String) (q : List Char) : AgentOutcome :=
  match key with
  | none => AgentOutcome.err OPENAI_KEY_MISSING_MSG
  | some _ => AgentOutcome.ok (runFinanceAgent (String.mk q) replies exec).output

/-! ## Market-data client and tool adapters (api.ts, tools/) -/

/-- JS `x.toFixed(2)`: decimal string with two fraction digits. -/
def toFixed2 (x : ℚ) : String :=
  let sign := if x < 0 then "-" else ""
  let cents : ℤ := round (|x| * 100)
  let whole := cents / 100
  let frac := cents % 100
  sign ++ toString whole ++ "." ++ (if frac < 10 then "0" else "") ++ toString frac

/-- api.ts `formatPrice`. -/
def formatPrice (price : ℚ) : String := "$" ++ toFixed2 price

/-- api.ts `formatPercent`. -/
def formatPercent (percent : ℚ) : String :=
  let sign := if 0 ≤ percent then "+" else ""
  sign ++ toFixed2 percent ++ "%"

/-- api.ts `formatLargeNumber`. -/
def formatLargeNumber (num : ℚ) : String :=
  if 1000000000000 ≤ num then toFixed2 (num / 1000000000000) ++ "T"
  else if 1000000000 ≤ num then toFixed2 (num / 1000000000) ++ "B"
  else if 1000000 ≤ num then toFixed2 (num / 1000000) ++ "M"
  else if 1000 ≤ num then toFixed2 (num / 1000) ++ "K"
  else toString num.num

/-- Outcome of one Alpha Vantage fetch, as api.ts distinguishes them:
a non-ok HTTP status; a 200 body without the expected field that
mentions "rate limit"; a 200 body without the expected field otherwise;
or a good parsed payload. -/
inductive Upstream (α : Type) where
  | ok (val : α)
  | httpError (status : Nat)
  | rateLimited
  | noData
deriving DecidableEq

/-- The error thrown by api.ts `getApiKey()` when the key is unset. -/
def ALPHA_KEY_MISSING_MSG : String :=
  "ALPHA_VANTAGE_API_KEY is not set.\nGet a free key at: https://www.alphavantage.co/support/#api-key\nThen add it to your .env.local file."

/-- The RATE_LIMITED error message thrown by api.ts. -/
def RATE_LIMITED_MSG : String :=
  "RATE_LIMITED: Alpha Vantage free tier allows 25 requests/day"

/-- A parsed GLOBAL_QUOTE payload (types.ts `StockQuote`). -/
structure StockQuote where
  symbol : String
  price : ℚ
  change : ℚ
  changePercent : ℚ
  «open» : ℚ
  high : ℚ
  low : ℚ
  volume : ℤ
  latestTradingDay : String
  previousClose : ℚ
deriving DecidableEq

/-- A parsed OVERVIEW payload (types.ts `CompanyInfo`); `none` models the
"None" fields mapped to null. -/
structure CompanyInfo where
  symbol : String
  name : String
  description : String
  sector : String
  industry : String
  marketCap : ℤ
  peRatio : Option ℚ
  dividendYield : Option ℚ
  fiftyTwoWeekHigh : ℚ
  fiftyTwoWeekLow : ℚ
  analystTargetPrice : Option ℚ
deriving DecidableEq

/-- api.ts `getStockQuote`: throws (returns `Except.error`) on missing
key, non-ok status, rate limiting, or missing quote data. -/
def getStockQuoteE (key : Option String) (upstream : Upstream StockQuote)
    (symbol : String) : Except String StockQuote :=
  match key with
  | none => Except.error ALPHA_KEY_MISSING_MSG
  | some _ =>
    match upstream with
    | Upstream.httpError status => Except.error ("Alpha Vantage API error: " ++ toString status)
    | Upstream.rateLimited => Except.error RATE_LIMITED_MSG
    | Upstream.noData => Except.error ("No data found for symbol: " ++ symbol)
    | Upstream.ok q => Except.ok q

/-- api.ts `getCompanyInfo`: same failure modes, with the not-found
message "No company info found for symbol: ...". -/
def getCompanyInfoE (key : Option String) (upstream : Upstream CompanyInfo)
    (symbol : String) : Except String CompanyInfo :=
  match key with
  | none => Except.error ALPHA_KEY_MISSING_MSG
  | some _ =>
    match upstream with
    | Upstream.httpError status => Except.error ("Alpha Vantage API error: " ++ toString status)
    | Upstream.rateLimited => Except.error RATE_LIMITED_MSG
    | Upstream.noData => Except.error ("No company info found for symbol: " ++ symbol)
    | Upstream.ok info => Except.ok info

/-- The `func` of the get_stock_quote tool (stock-quote.ts): formats the
quote on success; the catch block renders every failure as a string. -/
def stockQuoteToolFunc (key : Option String) (upstream : Upstream StockQuote)
    (symbol : String) : String :=
  match getStockQuoteE key upstream symbol with
  | Except.ok quote =>
    let direction := if 0 ≤ quote.change then "up" else "down"
    let emoji := if 0 ≤ quote.change then "📈" else "📉"
    emoji ++ " " ++ quote.symbol ++ " Stock Quote (" ++ quote.latestTradingDay ++ ")\n\n" ++
    "**Price: " ++ formatPrice quote.price ++ "** (" ++ direction ++ " " ++
    formatPercent quote.changePercent ++ " today)\n\nTrading Data:\n" ++
    "- Open: " ++ formatPrice quote.«open» ++ "\n" ++
    "- High: " ++ formatPrice quote.high ++ "\n" ++
    "- Low: " ++ formatPrice quote.low ++ "\n" ++
    "- Previous Close: " ++ formatPrice quote.previousClose ++ "\n" ++
    "- Volume: " ++ formatLargeNumber (quote.volume : ℚ) ++ " shares\n" ++
    "- Dollar Change: " ++ (if 0 ≤ quote.change then "+" else "") ++ "$" ++ toFixed2 quote.change
  | Except.error msg =>
    if strContains msg "RATE_LIMITED" then
      "⚠️ API rate limit reached. Alpha Vantage free tier allows 25 requests/day. Try again tomorrow or upgrade your API key."
    else if strContains msg "No data found" then
      "❌ Could not find stock data for \"" ++ symbol ++ "\". Make sure it's a valid US stock ticker symbol."
    else
      "❌ Error fetching stock quote: " ++ msg

/-- The `func` of the get_company_info tool (company-info.ts). -/
def companyInfoToolFunc (key : Option String) (upstream : Upstream CompanyInfo)
    (symbol : String) : String :=
  match getCompanyInfoE key upstream symbol with
  | Except.ok info =>
    let description :=
      if 500 < info.description.length then info.description.take 500 ++ "..."
      else info.description
    let parts : List String :=
      ["🏢 **" ++ info.name ++ "** (" ++ info.symbol ++ ")", "",
       "**About:** " ++ description, "",
       "**Sector:** " ++ info.sector,
       "**Industry:** " ++ info.industry, "",
       "**Key Metrics:**",
       "- Market Cap: $" ++ formatLargeNumber (info.marketCap : ℚ)]
    let parts := parts ++ [match info.peRatio with
      | some pe => "- P/E Ratio: " ++ toFixed2 pe
      | none => "- P/E Ratio: N/A (company may not be profitable)"]
    let parts := parts ++ (match info.dividendYield with
      | some dy => if 0 < dy then ["- Dividend Yield: " ++ toFixed2 (dy * 100) ++ "%"] else []
      | none => [])
    let parts := parts ++ ["", "**52-Week Range:**",
      "- Low: " ++ formatPrice info.fiftyTwoWeekLow,
      "- High: " ++ formatPrice info.fiftyTwoWeekHigh]
    let parts := parts ++ (match info.analystTargetPrice with
      | some t => ["", "**Analyst Target Price:** " ++ formatPrice t]
      | none => [])
    String.intercalate "\n" parts
  | Except.error msg =>
    if strContains msg "RATE_LIMITED" then
      "⚠️ API rate limit reached. Alpha Vantage free tier allows 25 requests/day."
    else if strContains msg "No company info found" then
      "❌ Could not find company info for \"" ++ symbol ++ "\". Make sure it's a valid US stock ticker."
    else
      "❌ Error fetching company info: " ++ msg

/-- Sentiment classification of a news article (types.ts `NewsArticle`). -/
inductive Sentiment where
  | positive
  | negative
  | neutral
deriving DecidableEq

/-- JS `article.sentiment.toUpperCase()`. -/
def sentimentUpper : Sentiment → String
  | Sentiment.positive => "POSITIVE"
  | Sentiment.negative => "NEGATIVE"
  | Sentiment.neutral => "NEUTRAL"

/-- The per-article sentiment emoji used by the news adapter. -/
def sentimentEmoji : Sentiment → String
  | Sentiment.positive => "🟢"
  | Sentiment.negative => "🔴"
  | Sentiment.neutral => "🟡"

/-- A parsed NEWS_SENTIMENT article (types.ts `NewsArticle`). -/
structure NewsArticle where
  title : String
  url : String
  source : String
  summary : String
  publishedAt : String
  sentiment : Sentiment
  sentimentScore : ℚ
deriving DecidableEq

/-- api.ts `getCompanyNews`: throws (returns `Except.error`) on missing
key, non-ok status, or rate limiting; a feed-less body that does not
mention the rate limit yields the empty list ("no news isn't
necessarily an error"); a good feed is sliced to `limit`. -/
def getCompanyNewsE (key : Option String) (upstream : Upstream (List NewsArticle))
    (limit : Nat) : Except String (List NewsArticle) :=
  match key with
  | none => Except.error ALPHA_KEY_MISSING_MSG
  | some _ =>
    match upstream with
    | Upstream.httpError status => Except.error ("Alpha Vantage API error: " ++ toString status)
    | Upstream.rateLimited => Except.error RATE_LIMITED_MSG
    | Upstream.noData => Except.ok []
    | Upstream.ok feed => Except.ok (feed.take limit)

/-- The `func` of the get_company_news tool (company-news.ts). The emoji
literals in that file are double-encoded (UTF-8 read as Mac Roman); the
originals are restored here. On success it renders the article list (or
the no-news notice); the catch block renders the rate-limited and
generic failures. -/
def companyNewsToolFunc (key : Option String) (upstream : Upstream (List NewsArticle))
    (symbol : String) (limit : Nat) : String :=
  match getCompanyNewsE key upstream limit with
  | Except.ok articles =>
    if articles.length = 0 then
      "📰 No recent news found for " ++ symbol ++ "."
    else
      let avgSentiment :=
        (articles.map NewsArticle.sentimentScore).sum / (articles.length : ℚ)
      let overallSentiment :=
        if 3 / 20 < avgSentiment then "🟢 Bullish"
        else if avgSentiment < -(3 / 20) then "🔴 Bearish"
        else "🟡 Neutral"
      let header : List String :=
        ["📰 **Recent News for " ++ symbol ++ "**",
         "Overall Sentiment: " ++ overallSentiment ++
           " (score: " ++ toFixed2 avgSentiment ++ ")",
         ""]
      let articleParts := (articles.enum).flatMap (fun (idx, article) =>
        let summary :=
          if 200 < article.summary.length then article.summary.take 200 ++ "..."
          else article.summary
        ["**" ++ toString (idx + 1) ++ ". " ++ article.title ++ "**",
         "   " ++ sentimentEmoji article.sentiment ++ " " ++
           sentimentUpper article.sentiment ++ " | " ++ article.source ++
           " | " ++ article.publishedAt,
         "   " ++ summary,
         ""])
      String.intercalate "\n" (header ++ articleParts)
  | Except.error msg =>
    if strContains msg "RATE_LIMITED" then
      "⚠️ API rate limit reached. Alpha Vantage free tier allows 25 requests/day."
    else
      "❌ Error fetching news: " ++ msg

/-- A string whose first character is one of the warning markers the
adapters use (the warning sign of "⚠️" or the cross mark "❌"). -/
def startsWithWarnMarker (s : String) : Bool :=
  match s.data with
  | [] => false
  | c :: _ => c == '⚠' || c == '❌'

/-! ## The get_company_news article-count schema (company-news.ts) -/

/-- The zod field `limit: z.number().min(1).max(10).default(5)` of the
get_company_news schema. zod's `min`/`max` are validators: a value below
1 or above 10 fails parsing (the tool invocation throws a validation
error, which the loop's catch turns into an `Error: ...` tool result);
`default(5)` applies only when the field is absent. `none` is the
rejection outcome. -/
def newsLimitParse : Option ℚ → Option ℚ
  | none => some 5
  | some n => if n < 1 then none else if 10 < n then none else some n

/-- Modelled from the spec: the claimed CLAMPING behavior of the news
adapter's article count ("numeric limits are clamped to a fixed range
(e.g., article count 1-10, default 5)"; "an out-of-range input is mapped
into the range rather than rejected"). Defined from the spec's words, to
be compared with `newsLimitParse`, which is defined from the source. -/
def specClampLimit : Option ℚ → ℚ
  | none => 5
  | some n => max 1 (min 10 n)

/-! ## Conversation well-formedness (for the pairing invariant) -/

/-- All tool-call ids carried by assistant turns of a conversation. -/
def collectCallIds : List Message → List String
  | [] => []
  | Message.ai _ tcs :: rest => tcs.map ToolCall.id ++ collectCallIds rest
  | _ :: rest => collectCallIds rest

/-- Check that every tool result's `tool_call_id` was announced by an
assistant turn strictly earlier in the conversation; `seen` carries the
ids announced by the prefix already scanned. -/
def isOrphanFreeAux (seen : List String) : List Message → Bool
  | [] => true
  | Message.toolMsg _ cid :: rest => decide (cid ∈ seen) && isOrphanFreeAux seen rest
  | Message.ai _ tcs :: rest => isOrphanFreeAux (seen ++ tcs.map ToolCall.id) rest
  | _ :: rest => isOrphanFreeAux seen rest

/-- A conversation with no orphan tool results. -/
def isOrphanFree (msgs : List Message) : Bool := isOrphanFreeAux [] msgs

/-! ## Loop lemmas -/

/-- Unfolding one looping pass: the assistant reply and all of the
iteration's tool results are appended before the next model invocation. -/
theorem runLoop_step (replies : Nat → ModelReply) (exec : ToolCall → String)
    (msgs : List Message) (i fuel : Nat) (h : (replies i).tool_calls ≠ []) :
    runLoop replies exec msgs i (fuel + 1) =
      bump (runLoop replies exec
        ((msgs ++ [Message.ai (replies i).content (replies i).tool_calls]) ++
          iterResults exec (replies i).tool_calls) (i + 1) fuel) := by
  simp only [runLoop]
  rw [if_neg (by simp [List.isEmpty_iff, h])]

/-- Unfolding the final pass: a reply with no tool calls ends the loop. -/
theorem runLoop_final (replies : Nat → ModelReply) (exec : ToolCall → String)
    (msgs : List Message) (i fuel : Nat) (h : (replies i).tool_calls = []) :
    runLoop replies exec msgs i (fuel + 1) =
      ⟨(replies i).content,
       msgs ++ [Message.ai (replies i).content (replies i).tool_calls], 1⟩ := by
  simp only [runLoop]
  rw [if_pos (by simp [List.isEmpty_iff, h])]

/-- The loop performs at most `fuel` model invocations. -/
theorem runLoop_invokes_le (replies : Nat → ModelReply) (exec : ToolCall → String) :
    ∀ fuel msgs i, (runLoop replies exec msgs i fuel).invokes ≤ fuel := by
  intro fuel
  induction fuel with
  | zero => intro msgs i; simp [runLoop]
  | succ n ih =>
    intro msgs i
    by_cases h : (replies i).tool_calls = []
    · rw [runLoop_final replies exec msgs i n h]
      exact Nat.le_add_left 1 n
    · rw [runLoop_step replies exec msgs i n h]
      simp only [bump]
      exact Nat.succ_le_succ (ih _ _)

/-- With tool calls requested at every remaining invocation, the loop
exhausts its fuel and returns the fallback output. -/
theorem runLoop_exhausts (replies : Nat → ModelReply) (exec : ToolCall → String) :
    ∀ fuel msgs i, (∀ j, j < fuel → (replies (i + j)).tool_calls ≠ []) →
      (runLoop replies exec msgs i fuel).output = fallbackOutput := by
  intro fuel
  induction fuel with
  | zero => intro msgs i _; rfl
  | succ n ih =>
    intro msgs i h
    have h0 : (replies i).tool_calls ≠ [] := by
      have := h 0 (Nat.succ_pos n)
      simpa using this
    rw [runLoop_step replies exec msgs i n h0]
    simp only [bump]
    apply ih
    intro j hj
    have heq : i + 1 + j = i + (j + 1) := by omega
    rw [heq]
    exact h (j + 1) (Nat.succ_lt_succ hj)

/-- The loop only appends to the conversation. -/
theorem runLoop_prefix (replies : Nat → ModelReply) (exec : ToolCall → String) :
    ∀ fuel msgs i, ∃ t, (runLoop replies exec msgs i fuel).messages = msgs ++ t := by
  intro fuel
  induction fuel with
  | zero => intro msgs i; exact ⟨[], by simp [runLoop]⟩
  | succ n ih =>
    intro msgs i
    by_cases h : (replies i).tool_calls = []
    · refine ⟨[Message.ai (replies i).content (replies i).tool_calls], ?_⟩
      rw [runLoop_final replies exec msgs i n h]
    · obtain ⟨t, ht⟩ := ih
        ((msgs ++ [Message.ai (replies i).content (replies i).tool_calls]) ++
          iterResults exec (replies i).tool_calls) (i + 1)
      refine ⟨[Message.ai (replies i).content (replies i).tool_calls] ++
        iterResults exec (replies i).tool_calls ++ t, ?_⟩
      rw [runLoop_step replies exec msgs i n h]
      simp only [bump]
      rw [ht]
      simp [List.append_assoc]

/-! ## Pairing-invariant lemmas -/

/-- Tool-call id collection distributes over conversation append. -/
theorem collectCallIds_append (xs ys : List Message) :
    collectCallIds (xs ++ ys) = collectCallIds xs ++ collectCallIds ys := by
  induction xs with
  | nil => rfl
  | cons m rest ih => cases m <;> simp [collectCallIds, ih]

/-- Orphan-freeness of an appended conversation splits into the prefix
and the suffix scanned with the prefix's announced ids. -/
theorem isOrphanFreeAux_append (seen : List String) (xs ys : List Message) :
    isOrphanFreeAux seen (xs ++ ys) =
      (isOrphanFreeAux seen xs && isOrphanFreeAux (seen ++ collectCallIds xs) ys) := by
  induction xs generalizing seen with
  | nil => simp [isOrphanFreeAux, collectCallIds]
  | cons m rest ih =>
    cases m with
    | system c => simp [isOrphanFreeAux, collectCallIds, ih]
    | human c => simp [isOrphanFreeAux, collectCallIds, ih]
    | ai c tcs => simp [isOrphanFreeAux, collectCallIds, ih, List.append_assoc]
    | toolMsg c cid => simp [isOrphanFreeAux, collectCallIds, ih, Bool.and_assoc]

/-- One iteration's tool results are orphan-free once every requested
call id has been announced. -/
theorem isOrphanFreeAux_results (seen : List String) (exec : ToolCall → String)
    (calls : List ToolCall) (h : ∀ tc ∈ calls, tc.id ∈ seen) :
    isOrphanFreeAux seen (iterResults exec calls) = true := by
  induction calls with
  | nil => rfl
  | cons tc rest ih =>
    have hrest : ∀ tc' ∈ rest, tc'.id ∈ seen := fun tc' h' => h tc' (List.mem_cons_of_mem _ h')
    by_cases hname : tc.name ∈ toolNames
    · have hid : tc.id ∈ seen := h tc (List.mem_cons_self _ _)
      simpa [iterResults, List.filterMap_cons, execToolCall, hname, isOrphanFreeAux, hid]
        using ih hrest
    · simpa [iterResults, List.filterMap_cons, execToolCall, hname] using ih hrest

/-- The loop preserves orphan-freeness of the conversation: every tool
result it appends carries an id announced by an earlier assistant turn. -/
theorem runLoop_orphanFree (replies : Nat → ModelReply) (exec : ToolCall → String) :
    ∀ fuel msgs i, isOrphanFree msgs = true →
      isOrphanFree (runLoop replies exec msgs i fuel).messages = true := by
  intro fuel
  induction fuel with
  | zero => intro msgs i h; simpa [runLoop, isOrphanFree] using h
  | succ n ih =>
    intro msgs i h
    by_cases hc : (replies i).tool_calls = []
    · rw [runLoop_final replies exec msgs i n hc]
      simp only [isOrphanFree] at h ⊢
      rw [isOrphanFreeAux_append]
      simp [h, isOrphanFreeAux]
    · rw [runLoop_step replies exec msgs i n hc]
      simp only [bump]
      apply ih
      simp only [isOrphanFree] at h ⊢
      rw [isOrphanFreeAux_append, Bool.and_eq_true]
      refine ⟨?_, ?_⟩
      · rw [isOrphanFreeAux_append, Bool.and_eq_true]
        refine ⟨h, ?_⟩
        simp [isOrphanFreeAux]
      · apply isOrphanFreeAux_results
        intro tc htc
        have hmem : tc.id ∈ ((replies i).tool_calls).map ToolCall.id :=
          List.mem_map_of_mem _ htc
        simp [collectCallIds_append, collectCallIds, hmem]

/-- One iteration appends exactly one tool result per registry-matched
call. -/
theorem iterResults_length (exec : ToolCall → String) (calls : List ToolCall) :
    (iterResults exec calls).length =
      (calls.filter (fun tc => toolNames.contains tc.name)).length := by
  induction calls with
  | nil => rfl
  | cons tc rest ih =>
    simp only [iterResults] at ih ⊢
    simp at ih
    by_cases hname : tc.name ∈ toolNames
    · simp [List.filterMap_cons, execToolCall, hname, List.filter_cons, ih]
    · simp [List.filterMap_cons, execToolCall, hname, List.filter_cons, ih]

/-- A string of nothing but whitespace trims to the empty string. -/
theorem jsTrim_all_whitespace (s : List Char) (h : ∀ c ∈ s, isJsWhitespace c = true) :
    jsTrim s = [] := by
  unfold jsTrim
  rw [List.dropWhile_eq_nil_iff.mpr h]
  rfl

/-! ## Claim theorems -/

/-- C1: for every input query and every sequence of model replies, the
loop performs at most 10 model invocations; if all 10 replies still
carry tool calls, it returns the fixed fallback string, which the
endpoint emits as a `message` frame (not an `error` frame). -/
theorem c1_iteration_ceiling (replies : Nat → ModelReply) (exec : ToolCall → String)
    (k : String) (q : List Char)
    (h : ∀ i, i < AGENT_CONFIG.maxIterations → (replies i).tool_calls ≠ [])
    (hq : (jsTrim q).isEmpty = false) :
    (∀ (replies' : Nat → ModelReply) (exec' : ToolCall → String) (query' : String),
        (runFinanceAgent query' replies' exec').invokes ≤ AGENT_CONFIG.maxIterations) ∧
    (∀ query' : String, (runFinanceAgent query' replies exec).output = fallbackOutput) ∧
    (POST ⟨some ⟨MessageField.str q⟩⟩ (agentRunOf replies exec (some k))).1 =
      [Frame.thought "Researching...", Frame.message fallbackOutput] := by
  have hout : ∀ query' : String,
      (runFinanceAgent query' replies exec).output = fallbackOutput := by
    intro query'
    unfold runFinanceAgent
    apply runLoop_exhausts
    intro j hj
    simpa using h j hj
  refine ⟨?_, hout, ?_⟩
  · intro replies' exec' query'
    exact runLoop_invokes_le replies' exec' _ _ _
  · have hqe : q.isEmpty = false := by
      cases hq' : q.isEmpty
      · rfl
      · exfalso
        rw [List.isEmpty_iff] at hq'
        rw [hq'] at hq
        simp [jsTrim] at hq
    simp only [POST]
    rw [if_neg (by rw [hqe, hq]; simp)]
    simp only [agentRunOf]
    rw [hout]

/-- C2: every request's stream carries exactly one terminal frame (one
final-answer `message` frame or one `error` frame, never both, never
neither), and that terminal frame is the last frame emitted. -/
theorem c2_one_terminal_frame (req : Request) (agentRun : List Char → AgentOutcome) :
    ∃ fr, isTerminalFrame fr = true ∧
      ((POST req agentRun).1).getLast? = some fr ∧
      ((POST req agentRun).1).filter isTerminalFrame = [fr] := by
  obtain ⟨body⟩ := req
  match body with
  | none =>
    exact ⟨Frame.error "Invalid request body", rfl, rfl, rfl⟩
  | some ⟨MessageField.missing⟩ =>
    exact ⟨Frame.error "Please provide a message", rfl, rfl, rfl⟩
  | some ⟨MessageField.nonString⟩ =>
    exact ⟨Frame.error "Please provide a message", rfl, rfl, rfl⟩
  | some ⟨MessageField.str s⟩ =>
    by_cases hcond : (s.isEmpty || (jsTrim s).isEmpty) = true
    · refine ⟨Frame.error "Please provide a message", rfl, ?_, ?_⟩ <;>
        simp [POST, hcond, isTerminalFrame]
    · cases hrun : agentRun ((jsTrim s).take 500) with
      | ok out =>
        refine ⟨Frame.message out, rfl, ?_, ?_⟩ <;>
          simp [POST, hcond, hrun, isTerminalFrame]
      | err e =>
        refine ⟨Frame.error (categorizeError e), rfl, ?_, ?_⟩ <;>
          simp [POST, hcond, hrun, isTerminalFrame]

/-- C3: a tool call whose name matches no registry tool yields no
ToolResult message (it is dropped from the iteration's results) and does
not fail: the loop proceeds normally to the next model invocation. -/
theorem c3_unknown_tool_dropped (exec : ToolCall → String) (tc : ToolCall)
    (hname : toolNames.contains tc.name = false) (pre post : List ToolCall) :
    execToolCall exec tc = none ∧
    iterResults exec (pre ++ tc :: post) = iterResults exec pre ++ iterResults exec post ∧
    (∀ (replies : Nat → ModelReply) (msgs : List Message) (i fuel : Nat) (c : String),
      replies i = ⟨c, pre ++ tc :: post⟩ →
      runLoop replies exec msgs i (fuel + 1) =
        bump (runLoop replies exec
          ((msgs ++ [Message.ai c (pre ++ tc :: post)]) ++
            (iterResults exec pre ++ iterResults exec post)) (i + 1) fuel)) := by
  have h1 : execToolCall exec tc = none := by
    have hmem : tc.name ∉ toolNames := by simpa using hname
    simp [execToolCall, hmem]
  have h2 : iterResults exec (pre ++ tc :: post) =
      iterResults exec pre ++ iterResults exec post := by
    simp [iterResults, List.filterMap_append, List.filterMap_cons, h1]
  refine ⟨h1, h2, ?_⟩
  intro replies msgs i fuel c hr
  have hne : (replies i).tool_calls ≠ [] := by simp [hr]
  rw [runLoop_step replies exec msgs i fuel hne]
  rw [hr] at *
  simp only at *
  rw [h2]

/-- C4: when every requested tool name is present in the registry, the
final conversation is orphan-free (every tool result's id was announced
by an earlier assistant turn), and all of an iteration's tool results
are appended before the next model invocation. -/
theorem c4_pairing_and_sequencing (query : String) (replies : Nat → ModelReply)
    (exec : ToolCall → String)
    (_hreg : ∀ i : Nat, ∀ tc ∈ (replies i).tool_calls, toolNames.contains tc.name = true) :
    isOrphanFree (runFinanceAgent query replies exec).messages = true ∧
    (∀ (msgs : List Message) (i fuel : Nat), (replies i).tool_calls ≠ [] →
      runLoop replies exec msgs i (fuel + 1) =
        bump (runLoop replies exec
          ((msgs ++ [Message.ai (replies i).content (replies i).tool_calls]) ++
            iterResults exec (replies i).tool_calls) (i + 1) fuel)) := by
  constructor
  · apply runLoop_orphanFree
    rfl
  · intro msgs i fuel h
    exact runLoop_step replies exec msgs i fuel h

/-- Witness for C1: a model that asks for get_stock_quote on every one
of its 10 invocations makes the endpoint emit the fallback text as a
`message` frame. -/
theorem c1_witness :
    (POST ⟨some ⟨MessageField.str ['h', 'i']⟩⟩
        (agentRunOf (fun _ => ⟨"", [⟨"get_stock_quote", "call-1", ""⟩]⟩)
          (fun _ => "r") (some "sk"))).1 =
      [Frame.thought "Researching...", Frame.message fallbackOutput] :=
  (c1_iteration_ceiling (fun _ => ⟨"", [⟨"get_stock_quote", "call-1", ""⟩]⟩)
    (fun _ => "r") "sk" ['h', 'i']
    (fun _ _ => by simp) (by decide)).2.2

/-- Witness for C3: a call to the invented tool name produces no result
message. -/
theorem c3_witness :
    execToolCall (fun _ => "r") ⟨"made_up_tool", "x1", ""⟩ = none :=
  (c3_unknown_tool_dropped (fun _ => "r") ⟨"made_up_tool", "x1", ""⟩ (by decide) [] []).1

/-- Witness for C4: a run whose single reply has no tool calls yields an
orphan-free conversation. -/
theorem c4_witness :
    isOrphanFree (runFinanceAgent "q" (fun _ => ⟨"done", []⟩) (fun _ => "r")).messages
      = true :=
  (c4_pairing_and_sequencing "q" (fun _ => ⟨"done", []⟩) (fun _ => "r")
    (fun _ tc h => absurd h (List.not_mem_nil tc))).1

/-- Appending to a string keeps its leading warning marker. -/
theorem startsWithWarnMarker_append (s t : String)
    (h : startsWithWarnMarker s = true) :
    startsWithWarnMarker (s ++ t) = true := by
  have hdata : (s ++ t).data = s.data ++ t.data := rfl
  unfold startsWithWarnMarker at h ⊢
  rw [hdata]
  cases hs : s.data with
  | nil => rw [hs] at h; simp at h
  | cons c cs => rw [hs] at h; simpa using h

/-- On any fetch failure, the get_stock_quote func returns the catch
block's rendering of the error. -/
theorem stockQuoteToolFunc_error (key : Option String) (u : Upstream StockQuote)
    (sym e : String) (he : getStockQuoteE key u sym = Except.error e) :
    stockQuoteToolFunc key u sym =
      (if strContains e "RATE_LIMITED" then
        "⚠️ API rate limit reached. Alpha Vantage free tier allows 25 requests/day. Try again tomorrow or upgrade your API key."
      else if strContains e "No data found" then
        "❌ Could not find stock data for \"" ++ sym ++ "\". Make sure it's a valid US stock ticker symbol."
      else "❌ Error fetching stock quote: " ++ e) := by
  unfold stockQuoteToolFunc
  rw [he]

/-- On any fetch failure, the get_company_info func returns the catch
block's rendering of the error. -/
theorem companyInfoToolFunc_error (key : Option String) (u : Upstream CompanyInfo)
    (sym e : String) (he : getCompanyInfoE key u sym = Except.error e) :
    companyInfoToolFunc key u sym =
      (if strContains e "RATE_LIMITED" then
        "⚠️ API rate limit reached. Alpha Vantage free tier allows 25 requests/day."
      else if strContains e "No company info found" then
        "❌ Could not find company info for \"" ++ sym ++ "\". Make sure it's a valid US stock ticker."
      else "❌ Error fetching company info: " ++ e) := by
  unfold companyInfoToolFunc
  rw [he]

/-- The get_stock_quote func's rate-limited rendering, for any key and
symbol. -/
theorem stockQuoteToolFunc_rateLimited (k s : String) :
    stockQuoteToolFunc (some k) Upstream.rateLimited s =
      "⚠️ API rate limit reached. Alpha Vantage free tier allows 25 requests/day. Try again tomorrow or upgrade your API key." := by
  rw [stockQuoteToolFunc_error (some k) Upstream.rateLimited s RATE_LIMITED_MSG rfl]
  rw [if_pos (by decide)]

/-- On any fetch failure, the get_company_news func returns the catch
block's rendering of the error. -/
theorem companyNewsToolFunc_error (key : Option String)
    (u : Upstream (List NewsArticle)) (sym : String) (limit : Nat) (e : String)
    (he : getCompanyNewsE key u limit = Except.error e) :
    companyNewsToolFunc key u sym limit =
      (if strContains e "RATE_LIMITED" then
        "⚠️ API rate limit reached. Alpha Vantage free tier allows 25 requests/day."
      else "❌ Error fetching news: " ++ e) := by
  unfold companyNewsToolFunc
  rw [he]

/-- C5: the execute funcs of all three registry tool adapters
(get_stock_quote, get_company_info, get_company_news) never raise to the
loop: every failure mode of the underlying fetch (missing credential,
HTTP error, rate limit, symbol not found) is rendered as a
human-readable string starting with a warning marker; under a
quota-exceeded condition each returns a string containing a rate-limit
marker; and the loop continues, appending that text as conversational
context before the next model invocation. -/
theorem c5_adapters_render_failures (key : Option String) (sym : String)
    (u : Upstream StockQuote) (u' : Upstream CompanyInfo)
    (u'' : Upstream (List NewsArticle)) (limit : Nat)
    (h1 : ∃ e, getStockQuoteE key u sym = Except.error e)
    (h2 : ∃ e, getCompanyInfoE key u' sym = Except.error e)
    (h3 : ∃ e, getCompanyNewsE key u'' limit = Except.error e) :
    startsWithWarnMarker (stockQuoteToolFunc key u sym) = true ∧
    startsWithWarnMarker (companyInfoToolFunc key u' sym) = true ∧
    startsWithWarnMarker (companyNewsToolFunc key u'' sym limit) = true ∧
    (∀ k : String,
      strContains (stockQuoteToolFunc (some k) Upstream.rateLimited sym) "rate limit" = true ∧
      strContains (companyInfoToolFunc (some k) Upstream.rateLimited sym) "rate limit" = true ∧
      strContains (companyNewsToolFunc (some k) Upstream.rateLimited sym limit)
        "rate limit" = true) ∧
    (∀ (k : String) (replies : Nat → ModelReply) (msgs : List Message) (i fuel : Nat)
        (c : String) (tc : ToolCall),
      replies i = ⟨c, [tc]⟩ → tc.name = "get_stock_quote" →
      runLoop replies (fun tc' => stockQuoteToolFunc (some k) Upstream.rateLimited tc'.args)
          msgs i (fuel + 1) =
        bump (runLoop replies
          (fun tc' => stockQuoteToolFunc (some k) Upstream.rateLimited tc'.args)
          ((msgs ++ [Message.ai c [tc]]) ++
            [Message.toolMsg
              "⚠️ API rate limit reached. Alpha Vantage free tier allows 25 requests/day. Try again tomorrow or upgrade your API key."
              tc.id])
          (i + 1) fuel)) := by
  obtain ⟨e1, he1⟩ := h1
  obtain ⟨e2, he2⟩ := h2
  obtain ⟨e3, he3⟩ := h3
  refine ⟨?_, ?_, ?_, ?_, ?_⟩
  · rw [stockQuoteToolFunc_error key u sym e1 he1]
    by_cases hr : strContains e1 "RATE_LIMITED" = true
    · rw [if_pos hr]; rfl
    · rw [if_neg hr]
      by_cases hn : strContains e1 "No data found" = true
      · rw [if_pos hn]
        exact startsWithWarnMarker_append _ _ rfl
      · rw [if_neg hn]
        exact startsWithWarnMarker_append _ _ rfl
  · rw [companyInfoToolFunc_error key u' sym e2 he2]
    by_cases hr : strContains e2 "RATE_LIMITED" = true
    · rw [if_pos hr]; rfl
    · rw [if_neg hr]
      by_cases hn : strContains e2 "No company info found" = true
      · rw [if_pos hn]
        exact startsWithWarnMarker_append _ _ rfl
      · rw [if_neg hn]
        exact startsWithWarnMarker_append _ _ rfl
  · rw [companyNewsToolFunc_error key u'' sym limit e3 he3]
    by_cases hr : strContains e3 "RATE_LIMITED" = true
    · rw [if_pos hr]; rfl
    · rw [if_neg hr]
      exact startsWithWarnMarker_append _ _ rfl
  · intro k
    refine ⟨?_, ?_, ?_⟩
    · rw [stockQuoteToolFunc_rateLimited k sym]
      decide
    · rw [companyInfoToolFunc_error (some k) Upstream.rateLimited sym RATE_LIMITED_MSG rfl]
      rw [if_pos (by decide)]
      decide
    · rw [companyNewsToolFunc_error (some k) Upstream.rateLimited sym limit RATE_LIMITED_MSG rfl]
      rw [if_pos (by decide)]
      decide
  · intro k replies msgs i fuel c tc hr hname
    have hne : (replies i).tool_calls ≠ [] := by simp [hr]
    rw [runLoop_step replies _ msgs i fuel hne]
    rw [hr]
    simp only
    have hres : iterResults (fun tc' => stockQuoteToolFunc (some k) Upstream.rateLimited tc'.args) [tc] =
        [Message.toolMsg
          "⚠️ API rate limit reached. Alpha Vantage free tier allows 25 requests/day. Try again tomorrow or upgrade your API key."
          tc.id] := by
      simp [iterResults, List.filterMap_cons, execToolCall, hname,
        stockQuoteToolFunc_rateLimited k tc.args,
        show ("get_stock_quote" : String) ∈ toolNames by decide]
    rw [hres]

/-- Witness for C5: with all three fetches quota-exceeded, the
get_stock_quote adapter returns a warning-marked string. -/
theorem c5_witness :
    startsWithWarnMarker
      (stockQuoteToolFunc (some "key") Upstream.rateLimited "NVDA") = true :=
  (c5_adapters_render_failures (some "key") "NVDA" Upstream.rateLimited
    Upstream.rateLimited Upstream.rateLimited 5 ⟨RATE_LIMITED_MSG, rfl⟩
    ⟨RATE_LIMITED_MSG, rfl⟩ ⟨RATE_LIMITED_MSG, rfl⟩).1

/-- C6 counterexample: an article count of 0 is rejected by the schema
(`newsLimitParse` yields no value), whereas the claimed clamping
behavior would map it into the range and use 1. -/
theorem c6_counterexample :
    newsLimitParse (some 0) = none ∧ specClampLimit (some 0) = 1 ∧
    ¬ newsLimitParse (some 0) = some (specClampLimit (some 0)) := by
  refine ⟨rfl, by decide, by decide⟩

/-- C6 (amended): an absent article count defaults to 5 and an in-range
count is used as-is, but an out-of-range count is rejected by the zod
validators (the tool invocation fails schema validation) rather than
being clamped into the range. -/
theorem c6_amended_limit_validation (n : ℚ) :
    newsLimitParse none = some 5 ∧
    (1 ≤ n → n ≤ 10 → newsLimitParse (some n) = some n) ∧
    (n < 1 ∨ 10 < n → newsLimitParse (some n) = none) := by
  refine ⟨rfl, ?_, ?_⟩
  · intro h1 h10
    simp [newsLimitParse, not_lt.mpr h1, not_lt.mpr h10]
  · rintro (h | h)
    · simp [newsLimitParse, h]
    · have h1 : ¬ n < 1 := by linarith
      simp [newsLimitParse, h1, h]

/-- Witness for C6 (amended): the in-range count 3 is used as-is. -/
theorem c6_witness : newsLimitParse (some 3) = some 3 :=
  (c6_amended_limit_validation 3).2.1 (by norm_num) (by norm_num)

/-- A nonempty character list stays nonempty after take 500. -/
theorem take500_ne_nil (l : List Char) (h : l ≠ []) : l.take 500 ≠ [] := by
  cases l with
  | nil => exact absurd rfl h
  | cons c cs => simp

/-- A message used by the C7 analysis: 499 letters, one inner space,
then two more letters — 502 characters, already trimmed. -/
def c7LongMsg : List Char := List.replicate 499 'a' ++ [' '] ++ ['b', 'b']

/-- Its trim-then-truncate result: 499 letters and a trailing space. -/
def c7Truncated : List Char := (jsTrim c7LongMsg).take 500

/-- An agent oracle that answers with exactly the query it received. -/
def c7Echo : List Char → AgentOutcome := fun q => AgentOutcome.ok (String.mk q)

set_option maxRecDepth 40000 in
/-- C7 counterexample: when truncation cuts just after a space, the
truncated string ends in whitespace; a request carrying exactly that
truncated string is trimmed again, so the agent input and the message
frame differ from the original request's. -/
theorem c7_counterexample :
    500 < c7LongMsg.length ∧
    POST ⟨some ⟨MessageField.str c7LongMsg⟩⟩ c7Echo ≠
      POST ⟨some ⟨MessageField.str c7Truncated⟩⟩ c7Echo := by
  constructor
  · decide
  · decide

/-- C7 (amended): the endpoint truncates the trimmed message to 500
characters; provided the truncated string is itself trim-stable (it
does not end in whitespace), the frames and the agent input equal those
of a request carrying exactly the truncated string. -/
theorem c7_amended_truncation (s : List Char) (f : List Char → AgentOutcome)
    (_hlen : 500 < s.length)
    (hne : jsTrim s ≠ [])
    (hstable : jsTrim ((jsTrim s).take 500) = (jsTrim s).take 500) :
    POST ⟨some ⟨MessageField.str s⟩⟩ f =
      POST ⟨some ⟨MessageField.str ((jsTrim s).take 500)⟩⟩ f ∧
    (POST ⟨some ⟨MessageField.str s⟩⟩ f).2 = some ((jsTrim s).take 500) := by
  have hsne : s ≠ [] := by
    intro h0
    exact hne (by rw [h0]; rfl)
  have hm : (jsTrim s).take 500 ≠ [] := take500_ne_nil _ hne
  have hcond1 : (s.isEmpty || (jsTrim s).isEmpty) = false := by
    simp [List.isEmpty_iff, hsne, hne]
  have hcond2 :
      (((jsTrim s).take 500).isEmpty || (jsTrim ((jsTrim s).take 500)).isEmpty) = false := by
    rw [hstable]
    simp [List.isEmpty_iff, hm]
  have htt : (jsTrim ((jsTrim s).take 500)).take 500 = (jsTrim s).take 500 := by
    rw [hstable]
    simp [List.take_take]
  constructor
  · simp only [POST]
    rw [if_neg (by simp [hcond1]), if_neg (by simp [hcond2]), htt]
  · simp only [POST]
    rw [if_neg (by simp [hcond1])]
    cases f ((jsTrim s).take 500) <;> rfl

set_option maxRecDepth 40000 in
/-- Witness for C7 (amended): a 501-letter message truncates to its
first 500 letters and behaves like that 500-letter request. -/
theorem c7_witness :
    POST ⟨some ⟨MessageField.str (List.replicate 501 'a')⟩⟩ c7Echo =
      POST ⟨some ⟨MessageField.str ((jsTrim (List.replicate 501 'a')).take 500)⟩⟩ c7Echo :=
  (c7_amended_truncation (List.replicate 501 'a') c7Echo (by decide) (by decide)
    (by decide)).1

/-- Model replies for the C8 analysis: the first reply requests two
registry tools, the second gives the final answer. -/
def c8Replies : Nat → ModelReply := fun i =>
  if i = 0 then
    ⟨"", [⟨"get_stock_quote", "call-1", ""⟩, ⟨"get_company_info", "call-2", ""⟩]⟩
  else ⟨"done", []⟩

/-- A fixed tool-execution oracle for the C8 analysis. -/
def c8Exec : ToolCall → String := fun _ => "result"

/-- The conversation at the start of the second model invocation of the
C8 run: the two initial entries, the assistant turn, two tool results. -/
def c8Conv1 : List Message :=
  initialConv "q" ++
    [Message.ai "" [⟨"get_stock_quote", "call-1", ""⟩, ⟨"get_company_info", "call-2", ""⟩],
     Message.toolMsg "result" "call-1", Message.toolMsg "result" "call-2"]

/-- C8 counterexample: an iteration whose assistant turn carries two
registry tool calls grows the conversation by three entries, not two:
the run's first iteration takes the conversation from `initialConv "q"`
(2 entries) to `c8Conv1` (5 entries). -/
theorem c8_counterexample :
    runLoop c8Replies c8Exec (initialConv "q") 0 10 =
      bump (runLoop c8Replies c8Exec c8Conv1 1 9) ∧
    c8Conv1.length = (initialConv "q").length + 3 ∧
    ¬ c8Conv1.length = (initialConv "q").length + 2 := by
  refine ⟨rfl, by decide, by decide⟩

/-- C8 (amended): per looping iteration the conversation grows by one
assistant entry plus one entry per registry-matched tool call (so by
exactly two entries only when exactly one requested call matches the
registry), until the assistant turn carries no tool calls. -/
theorem c8_amended_growth (replies : Nat → ModelReply) (exec : ToolCall → String)
    (msgs : List Message) (i fuel : Nat) (h : (replies i).tool_calls ≠ []) :
    runLoop replies exec msgs i (fuel + 1) =
      bump (runLoop replies exec
        ((msgs ++ [Message.ai (replies i).content (replies i).tool_calls]) ++
          iterResults exec (replies i).tool_calls) (i + 1) fuel) ∧
    ((msgs ++ [Message.ai (replies i).content (replies i).tool_calls]) ++
        iterResults exec (replies i).tool_calls).length =
      msgs.length + 1 +
        (((replies i).tool_calls).filter (fun tc => toolNames.contains tc.name)).length := by
  refine ⟨runLoop_step replies exec msgs i fuel h, ?_⟩
  rw [List.length_append, List.length_append, iterResults_length]
  simp

/-- Witness for C8 (amended): the C8 run's first iteration appends the
assistant turn and both matched tool results before invocation 2. -/
theorem c8_witness :
    runLoop c8Replies c8Exec (initialConv "q") 0 10 =
      bump (runLoop c8Replies c8Exec
        ((initialConv "q" ++
            [Message.ai (c8Replies 0).content (c8Replies 0).tool_calls]) ++
          iterResults c8Exec (c8Replies 0).tool_calls) 1 9) :=
  (c8_amended_growth c8Replies c8Exec (initialConv "q") 0 9 (by decide)).1

/-- C9: a missing, non-string, or empty message is rejected with exactly
one error frame carrying the provide-a-message marker and no agent
invocation (hence no model or tool work); and whenever the loop does
run, the conversation starts with the fixed system instructions, which
are never mutated or removed (the loop only appends). -/
theorem c9_rejects_invalid_message (f : List Char → AgentOutcome) (s : List Char)
    (hs : s = [] ∨ jsTrim s = []) :
    POST ⟨some ⟨MessageField.missing⟩⟩ f =
      ([Frame.error "Please provide a message"], none) ∧
    POST ⟨some ⟨MessageField.nonString⟩⟩ f =
      ([Frame.error "Please provide a message"], none) ∧
    POST ⟨some ⟨MessageField.str s⟩⟩ f =
      ([Frame.error "Please provide a message"], none) ∧
    strContains "Please provide a message" "provide a message" = true ∧
    (∀ (query : String) (replies : Nat → ModelReply) (exec : ToolCall → String),
      ∃ t, (runFinanceAgent query replies exec).messages =
        Message.system FINANCE_AGENT_SYSTEM_PROMPT :: Message.human query :: t) := by
  refine ⟨rfl, rfl, ?_, by decide, ?_⟩
  · have hcond : (s.isEmpty || (jsTrim s).isEmpty) = true := by
      rcases hs with h | h <;> simp [List.isEmpty_iff, h]
    simp only [POST]
    rw [if_pos hcond]
  · intro query replies exec
    obtain ⟨t, ht⟩ :=
      runLoop_prefix replies exec AGENT_CONFIG.maxIterations (initialConv query) 0
    exact ⟨t, by simpa [runFinanceAgent, initialConv] using ht⟩

/-- Witness for C9: a one-space message is rejected with the
provide-a-message error frame and no agent invocation. -/
theorem c9_witness :
    POST ⟨some ⟨MessageField.str [' ']⟩⟩ (fun _ => AgentOutcome.ok "x") =
      ([Frame.error "Please provide a message"], none) :=
  (c9_rejects_invalid_message (fun _ => AgentOutcome.ok "x") [' ']
    (Or.inr (by decide))).2.2.1

/-- C10: a message consisting only of whitespace trims to empty and is
rejected exactly like an empty message: the same provide-a-message error
frame and no agent invocation. -/
theorem c10_whitespace_only_rejected (f : List Char → AgentOutcome) (s : List Char)
    (hws : ∀ c ∈ s, isJsWhitespace c = true) :
    POST ⟨some ⟨MessageField.str s⟩⟩ f =
      ([Frame.error "Please provide a message"], none) := by
  have htrim : jsTrim s = [] := jsTrim_all_whitespace s hws
  simp only [POST]
  rw [if_pos (by simp [List.isEmpty_iff, htrim])]

/-- Witness for C10: a space-and-tab message is rejected like an empty
one. -/
theorem c10_witness :
    POST ⟨some ⟨MessageField.str [' ', '\t']⟩⟩ (fun _ => AgentOutcome.ok "x") =
      ([Frame.error "Please provide a message"], none) :=
  c10_whitespace_only_rejected (fun _ => AgentOutcome.ok "x") [' ', '\t'] (by decide)
